import Mathlib

/-!
Shallow embedding of the broad-be backend (Fastify + Supabase, TypeScript)
for checking its natural-language specification.

Conventions of the embedding:
* Database tables are Lean lists of row values; filtered selects are
  `List.filter`; `.single()` succeeds exactly when the filtered result is a
  one-element list (PostgREST errors with code PGRST116 on zero or multiple
  rows), and every service method that receives a storage error throws,
  which route handlers catch and convert to a 500 response.
* JavaScript `undefined` object fields are `Option.none`; for raw rows a
  missing key and an SQL NULL are both read back as `none`.
* External collaborators (the Supabase auth provider) are passed in as
  explicit outcome arguments to the handlers that call them.
-/

namespace Broad

/-! ## src/utils/response.ts -/

/-- The `error` part of the uniform response envelope. -/
structure ErrorBody where
  code : String
  message : String
deriving DecidableEq, Repr

/-- `meta` pagination block of the response envelope. -/
structure PaginationMeta where
  page : Nat
  limit : Nat
  total : Nat
  hasMore : Bool
deriving DecidableEq, Repr

/-- `createPaginationMeta` from src/utils/response.ts. -/
def createPaginationMeta (page limit total : Nat) : PaginationMeta :=
  { page := page
    limit := limit
    total := total
    hasMore := decide (page * limit < total) }

namespace CommonErrors

def VALIDATION_ERROR : ErrorBody := ⟨"VALIDATION_ERROR", "Invalid request data"⟩

def NOT_FOUND (resource : String) : ErrorBody :=
  ⟨"NOT_FOUND", resource ++ " not found"⟩

def UNAUTHORIZED : ErrorBody := ⟨"UNAUTHORIZED", "Authentication required"⟩

def FORBIDDEN : ErrorBody := ⟨"FORBIDDEN", "Insufficient permissions"⟩

def CONFLICT (message : String) : ErrorBody := ⟨"CONFLICT", message⟩

def INTERNAL_ERROR : ErrorBody := ⟨"INTERNAL_ERROR", "Internal server error"⟩

def BAD_REQUEST (message : String) : ErrorBody := ⟨"BAD_REQUEST", message⟩

end CommonErrors

/-! ## src/middleware/auth.ts : role gate -/

/-- The `request.user` context attached by the auth middleware. -/
structure UserCtx where
  id : String
  email : String
  role : String
deriving DecidableEq, Repr

/-- Outcome of a preHandler middleware: either it replies with an error and a
status code, or it lets the request continue with its (unchanged) user
context. -/
inductive GateOutcome where
  | reject (status : Nat) (error : ErrorBody)
  | pass (user : UserCtx)
deriving DecidableEq, Repr

/-- `requireRole` from src/middleware/auth.ts: 401 when no user is attached,
403 when the attached user's role is not in the allow-list, otherwise the
request proceeds with the user context untouched. -/
def requireRole (allowedRoles : List String) (requestUser : Option UserCtx) :
    GateOutcome :=
  match requestUser with
  | none => .reject 401 ⟨"UNAUTHORIZED", "Authentication required"⟩
  | some u =>
    if allowedRoles.contains u.role then .pass u
    else .reject 403 ⟨"FORBIDDEN", "Insufficient permissions"⟩

/-! ## src/services/garage.ts : MotorcycleService -/

/-- A row of the `motorcycles` table; `deleted_at = none` means the row is
active (NULL column), `some ts` is the soft-delete timestamp. -/
structure Motorcycle where
  id : String
  garage_id : String
  make : String
  model : String
  year : Int
  vin : Option String
  odometer_km : Option Int
  deleted_at : Option String
  created_at : String
deriving DecidableEq, Repr

namespace MotorcycleService

/-- `getMotorcycleById`: select by id with `.is('deleted_at', null)` and
`.single()`; the thrown error on a non-single result is the `Except.error`. -/
def getMotorcycleById (db : List Motorcycle) (id : String) :
    Except String Motorcycle :=
  match db.filter (fun m => m.id == id && m.deleted_at.isNone) with
  | [m] => .ok m
  | _ => .error "Failed to get motorcycle: PGRST116"

/-- `getMotorcyclesByGarage`: select by garage_id with the null-deleted-at
predicate (the `created_at` descending order does not affect membership and
is left out of the embedding). -/
def getMotorcyclesByGarage (db : List Motorcycle) (garageId : String) :
    List Motorcycle :=
  db.filter (fun m => m.garage_id == garageId && m.deleted_at.isNone)

/-- `softDeleteMotorcycle`: `update({ deleted_at: now })` on the rows matching
the id; the row set itself is returned (the route discards the selected row). -/
def softDeleteMotorcycle (db : List Motorcycle) (id : String) (now : String) :
    List Motorcycle :=
  db.map (fun m => if m.id == id then { m with deleted_at := some now } else m)

/-- A query on `motorcycles` filtering on the id only, without the
null-deleted-at predicate (the explicit bypass query of the spec). -/
def queryByIdBypassingDeleteFilter (db : List Motorcycle) (id : String) :
    List Motorcycle :=
  db.filter (fun m => m.id == id)

end MotorcycleService

/-- Two motorcycle rows that agree on every column except `deleted_at`. -/
def agreesExceptDeletedAt (a b : Motorcycle) : Prop :=
  a.id = b.id ∧ a.garage_id = b.garage_id ∧ a.make = b.make ∧
  a.model = b.model ∧ a.year = b.year ∧ a.vin = b.vin ∧
  a.odometer_km = b.odometer_km ∧ a.created_at = b.created_at

instance : DecidablePred (fun p : Motorcycle × Motorcycle =>
    agreesExceptDeletedAt p.1 p.2) := by
  intro p
  unfold agreesExceptDeletedAt
  infer_instance

/-! ## src/services/ride.ts -/

/-- A meetup location object (lat/lon/address). -/
structure Location where
  latitude : Rat
  longitude : Rat
  address : Option String
deriving DecidableEq, Repr

/-- A row of the `rides` table (legacy ride columns plus the newer "trip"
columns, as mapped by `RideService.createRide`/`updateRide`). -/
structure Ride where
  id : String
  creator_id : String
  title : String
  tagline : Option String
  route_summary : Option String
  starts_at : String
  meetup_location : Option Location
  pace : Option String
  experience_level : Option String
  max_riders : Int
  status : String
  name : Option String
  date_iso : Option String
  meetup_iso : Option String
  meet_location : Option String
  distance : Option String
  gear_callout : Option String
  comm_signals : Option (List String)
  safety_checks : Option (List String)
  created_at : String
deriving DecidableEq, Repr

/-- A row of the `bookings` table. -/
structure Booking where
  id : String
  ride_id : String
  rider_id : String
  status : String
  created_at : String
deriving DecidableEq, Repr

/-- Body of PATCH /api/rides/:id after schema validation (all fields
optional; `none` is an omitted field). -/
structure UpdateRideBody where
  title : Option String
  tagline : Option String
  routeSummary : Option String
  startsAt : Option String
  meetupLocation : Option Location
  pace : Option String
  experienceLevel : Option String
  maxRiders : Option Int
  status : Option String
  name : Option String
  dateISO : Option String
  meetupISO : Option String
  meetLocation : Option String
  distance : Option String
  gearCallout : Option String
  commSignals : Option (List String)
  safetyChecks : Option (List String)
deriving DecidableEq, Repr

/-- JavaScript truthiness of an optional string filter value: `undefined`
and the empty string are falsy, so `if (filters.x)` skips the filter for
both. -/
def jsTruthyStr (v : Option String) : Bool :=
  match v with
  | none => false
  | some s => !(s == "")

namespace RideService

/-- `getRideById`: select by id, `.single()`. On zero rows PostgREST errors
(PGRST116) and the service throws, so the route's `!existingRide` → 404
branch is unreachable; routes reach their catch block (500) instead. -/
def getRideById (db : List Ride) (id : String) : Except String Ride :=
  match db.filter (fun r => r.id == id) with
  | [r] => .ok r
  | _ => .error "Failed to get ride: PGRST116"

/-- Effect on one matching row of the `updateRide` mapped payload: the
camelCase keys are re-keyed to snake_case columns and `undefined` values are
dropped by JSON serialization, so each column is set only when the
corresponding field is present. -/
def applyRideUpdate (b : UpdateRideBody) (r : Ride) : Ride :=
  { r with
    title := b.title.getD r.title
    tagline := if b.tagline.isSome then b.tagline else r.tagline
    route_summary := if b.routeSummary.isSome then b.routeSummary else r.route_summary
    starts_at := b.startsAt.getD r.starts_at
    meetup_location := if b.meetupLocation.isSome then b.meetupLocation else r.meetup_location
    pace := if b.pace.isSome then b.pace else r.pace
    experience_level := if b.experienceLevel.isSome then b.experienceLevel else r.experience_level
    max_riders := b.maxRiders.getD r.max_riders
    status := b.status.getD r.status
    name := if b.name.isSome then b.name else r.name
    date_iso := if b.dateISO.isSome then b.dateISO else r.date_iso
    meetup_iso := if b.meetupISO.isSome then b.meetupISO else r.meetup_iso
    meet_location := if b.meetLocation.isSome then b.meetLocation else r.meet_location
    distance := if b.distance.isSome then b.distance else r.distance
    gear_callout := if b.gearCallout.isSome then b.gearCallout else r.gear_callout
    comm_signals := if b.commSignals.isSome then b.commSignals else r.comm_signals
    safety_checks := if b.safetyChecks.isSome then b.safetyChecks else r.safety_checks }

/-- `updateRide`: update the rows matching the id with the mapped payload,
then `.select().single()` on the updated rows; returns the updated row and
the table after the write. -/
def updateRide (db : List Ride) (id : String) (b : UpdateRideBody) :
    Except String (Ride × List Ride) :=
  let db2 := db.map (fun r => if r.id == id then applyRideUpdate b r else r)
  match db2.filter (fun r => r.id == id) with
  | [r] => .ok (r, db2)
  | _ => .error "Failed to update ride: PGRST116"

/-- `cancelRide`: `update({ status: 'cancelled' })` on the rows matching the
id, then `.select().single()`. -/
def cancelRide (db : List Ride) (id : String) :
    Except String (Ride × List Ride) :=
  let db2 := db.map (fun r => if r.id == id then { r with status := "cancelled" } else r)
  match db2.filter (fun r => r.id == id) with
  | [r] => .ok (r, db2)
  | _ => .error "Failed to cancel ride: PGRST116"

/-- `getUpcomingRides`: rides with `starts_at >= now` and `status = 'active'`
(the `starts_at` ascending order does not affect membership and is left out
of the embedding). -/
def getUpcomingRides (db : List Ride) (now : String) : List Ride :=
  db.filter (fun r => decide (now ≤ r.starts_at) && r.status == "active")

/-- Optional filters of `searchRides`. -/
structure SearchFilters where
  pace : Option String
  experience_level : Option String
  starts_after : Option String
  starts_before : Option String
deriving DecidableEq, Repr

/-- `searchRides`: base query `eq('status', 'active')`, then each filter is
added only when the corresponding value is truthy. -/
def searchRides (db : List Ride) (f : SearchFilters) : List Ride :=
  db.filter (fun r =>
    r.status == "active"
    && (!jsTruthyStr f.pace || r.pace == f.pace)
    && (!jsTruthyStr f.experience_level || r.experience_level == f.experience_level)
    && (!jsTruthyStr f.starts_after || decide (f.starts_after.getD "" ≤ r.starts_at))
    && (!jsTruthyStr f.starts_before || decide (r.starts_at ≤ f.starts_before.getD "")))

end RideService

/-! ## src/routes/rides.ts handlers -/

/-- Reply of a ride route handler: HTTP status, optional error envelope,
optional ride body, and the state of the two tables afterwards. -/
structure RideReply where
  httpStatus : Nat
  error : Option ErrorBody
  body : Option Ride
  rides : List Ride
  bookings : List Booking
deriving DecidableEq, Repr

/-- PATCH /api/rides/:id handler: fetch the ride (service throws → 500),
reject non-creators with 403 before any write, then delegate to
`RideService.updateRide`. -/
def updateRideHandler (rides : List Ride) (bookings : List Booking)
    (userId : Option String) (id : String) (b : UpdateRideBody) : RideReply :=
  match RideService.getRideById rides id with
  | .error _ => ⟨500, some CommonErrors.INTERNAL_ERROR, none, rides, bookings⟩
  | .ok existingRide =>
    if userId ≠ some existingRide.creator_id then
      ⟨403, some CommonErrors.FORBIDDEN, none, rides, bookings⟩
    else
      match RideService.updateRide rides id b with
      | .ok (r, rides2) => ⟨200, none, some r, rides2, bookings⟩
      | .error _ =>
        ⟨500, some CommonErrors.INTERNAL_ERROR, none,
          rides.map (fun r => if r.id == id then RideService.applyRideUpdate b r else r),
          bookings⟩

/-- POST /api/rides/:id/book handler (verbatim from the source: despite its
name it runs the cancel logic and never touches the `bookings` table). -/
def bookRideHandler (rides : List Ride) (bookings : List Booking)
    (userId : Option String) (id : String) : RideReply :=
  match RideService.getRideById rides id with
  | .error _ => ⟨500, some CommonErrors.INTERNAL_ERROR, none, rides, bookings⟩
  | .ok existingRide =>
    if userId ≠ some existingRide.creator_id then
      ⟨403, some CommonErrors.FORBIDDEN, none, rides, bookings⟩
    else if existingRide.status == "completed" || existingRide.status == "cancelled" then
      ⟨400, some (CommonErrors.BAD_REQUEST "Cannot cancel completed or already cancelled ride"),
        none, rides, bookings⟩
    else
      match RideService.cancelRide rides id with
      | .ok (r, rides2) => ⟨200, none, some r, rides2, bookings⟩
      | .error _ =>
        ⟨500, some CommonErrors.INTERNAL_ERROR, none,
          rides.map (fun r => if r.id == id then { r with status := "cancelled" } else r),
          bookings⟩

/-- PATCH /api/rides/:id/cancel handler (verbatim from the source). -/
def cancelRideHandler (rides : List Ride) (bookings : List Booking)
    (userId : Option String) (id : String) : RideReply :=
  match RideService.getRideById rides id with
  | .error _ => ⟨500, some CommonErrors.INTERNAL_ERROR, none, rides, bookings⟩
  | .ok existingRide =>
    if userId ≠ some existingRide.creator_id then
      ⟨403, some CommonErrors.FORBIDDEN, none, rides, bookings⟩
    else if existingRide.status == "completed" || existingRide.status == "cancelled" then
      ⟨400, some (CommonErrors.BAD_REQUEST "Cannot cancel completed or already cancelled ride"),
        none, rides, bookings⟩
    else
      match RideService.cancelRide rides id with
      | .ok (r, rides2) => ⟨200, none, some r, rides2, bookings⟩
      | .error _ =>
        ⟨500, some CommonErrors.INTERNAL_ERROR, none,
          rides.map (fun r => if r.id == id then { r with status := "cancelled" } else r),
          bookings⟩

/-- PATCH /api/rides/:id/complete handler (verbatim from the source: its body
is the cancel handler's body, including the `cancelRide` call). -/
def completeRideHandler (rides : List Ride) (bookings : List Booking)
    (userId : Option String) (id : String) : RideReply :=
  match RideService.getRideById rides id with
  | .error _ => ⟨500, some CommonErrors.INTERNAL_ERROR, none, rides, bookings⟩
  | .ok existingRide =>
    if userId ≠ some existingRide.creator_id then
      ⟨403, some CommonErrors.FORBIDDEN, none, rides, bookings⟩
    else if existingRide.status == "completed" || existingRide.status == "cancelled" then
      ⟨400, some (CommonErrors.BAD_REQUEST "Cannot cancel completed or already cancelled ride"),
        none, rides, bookings⟩
    else
      match RideService.cancelRide rides id with
      | .ok (r, rides2) => ⟨200, none, some r, rides2, bookings⟩
      | .error _ =>
        ⟨500, some CommonErrors.INTERNAL_ERROR, none,
          rides.map (fun r => if r.id == id then { r with status := "cancelled" } else r),
          bookings⟩

/-! ## src/schemas/index.ts : PaginationSchema -/

/-- Raw pagination query input; a JSON number is modelled as a rational, a
missing field as `none`. -/
structure PaginationRawInput where
  page : Option Rat
  limit : Option Rat
deriving DecidableEq, Repr

/-- Parsed pagination values. -/
structure PaginationParsed where
  page : Int
  limit : Int
deriving DecidableEq, Repr

/-- `z.number().int().min(1).default(1)` applied to the `page` field:
a missing value yields the default without validation; a present value must
be an integer at least 1. -/
def parsePageField (v : Option Rat) : Except String Int :=
  match v with
  | none => .ok 1
  | some q =>
    if q.den = 1 then
      if 1 ≤ q then .ok q.num
      else .error "page: Number must be greater than or equal to 1"
    else .error "page: Expected integer, received float"

/-- `z.number().int().min(1).max(100).default(20)` applied to the `limit`
field. -/
def parseLimitField (v : Option Rat) : Except String Int :=
  match v with
  | none => .ok 20
  | some q =>
    if q.den = 1 then
      if 1 ≤ q then
        if q ≤ 100 then .ok q.num
        else .error "limit: Number must be less than or equal to 100"
      else .error "limit: Number must be greater than or equal to 1"
    else .error "limit: Expected integer, received float"

/-- `PaginationSchema.parse` (the zod object schema; error aggregation over
fields is collapsed to the first failing field, which does not affect the
accepted set). -/
def PaginationSchema.parse (inp : PaginationRawInput) :
    Except String PaginationParsed :=
  match parsePageField inp.page, parseLimitField inp.limit with
  | .ok p, .ok l => .ok ⟨p, l⟩
  | .error e, _ => .error e
  | _, .error e => .error e

/-! ## src/services/profile.ts and src/routes/profiles.ts (create path)

The `profiles` table is modelled at the key level so that the camelCase vs
snake_case write bug is visible: a row is an association list from column
name to nullable value; PostgREST rejects an insert whose payload contains a
key that is not a column of the table. -/

/-- A raw row / insert payload: column name to value, `none` is SQL NULL.
A key absent from the list is an unset (`undefined`) field. -/
abbrev Row : Type := List (String × Option String)

/-- Read a column of a raw row; both a missing key and a NULL value read back
as `none` (JS `undefined` and `null` respectively). -/
def getCol (r : Row) (k : String) : Option String :=
  match r.find? (fun kv => kv.1 == k) with
  | some kv => kv.2
  | none => none

/-- Columns of the `profiles` table (exactly the fields read by
`ProfileService.transformProfileToAPI`). -/
def profileColumns : List String :=
  ["id", "handle", "display_name", "bio", "avatar_url", "country_code",
   "phone_number", "expo_push_token", "role", "is_available", "latitude",
   "longitude", "created_at", "updated_at"]

/-- PostgREST insert into `profiles`: errors when the payload holds a key
that is not a column of the table, otherwise appends the row. -/
def insertProfileRow (db : List Row) (payload : Row) :
    Except String (Row × List Row) :=
  if payload.all (fun kv => profileColumns.contains kv.1) then
    .ok (payload, db ++ [payload])
  else
    .error "Could not find a payload column in the schema cache"

/-- API-facing profile shape produced by the read transform. -/
structure ApiProfile where
  id : Option String
  handle : Option String
  displayName : Option String
  bio : Option String
  avatarUrl : Option String
  countryCode : Option String
  phoneNumber : Option String
  expoPushToken : Option String
  role : Option String
  isAvailable : Option String
  latitude : Option String
  longitude : Option String
  createdAt : Option String
  updatedAt : Option String
deriving DecidableEq, Repr

namespace ProfileService

/-- `transformProfileToAPI`: null in, null out; otherwise each camelCase API
field reads the corresponding snake_case column. -/
def transformProfileToAPI (profile : Option Row) : Option ApiProfile :=
  match profile with
  | none => none
  | some p =>
    some
      { id := getCol p "id"
        handle := getCol p "handle"
        displayName := getCol p "display_name"
        bio := getCol p "bio"
        avatarUrl := getCol p "avatar_url"
        countryCode := getCol p "country_code"
        phoneNumber := getCol p "phone_number"
        expoPushToken := getCol p "expo_push_token"
        role := getCol p "role"
        isAvailable := getCol p "is_available"
        latitude := getCol p "latitude"
        longitude := getCol p "longitude"
        createdAt := getCol p "created_at"
        updatedAt := getCol p "updated_at" }

/-- `getProfileByUserId`: select by id, `.single()` (throws on zero rows, so
the result is `.error` when no profile row exists), then the read transform. -/
def getProfileByUserId (db : List Row) (userId : String) :
    Except String (Option ApiProfile) :=
  match db.filter (fun r => getCol r "id" == some userId) with
  | [r] => .ok (transformProfileToAPI (some r))
  | _ => .error "Failed to get profile by user ID: PGRST116"

/-- `createProfile`: insert the payload (the auth-metadata sync that follows
only logs a warning and does not change the result), then the read
transform of the inserted row. -/
def createProfile (db : List Row) (profileData : Row) :
    Except String (Option ApiProfile × List Row) :=
  match insertProfileRow db profileData with
  | .ok (row, db2) => .ok (transformProfileToAPI (some row), db2)
  | .error e => .error ("Failed to create profile: " ++ e)

end ProfileService

/-- Validated body of POST /api/profiles (camelCase fields; `displayName`
required, the rest optional). -/
structure CreateProfileBody where
  handle : Option String
  displayName : String
  bio : Option String
  avatarUrl : Option String
  countryCode : Option String
  phoneNumber : Option String
deriving DecidableEq, Repr

/-- The object the POST /api/profiles handler builds:
`{ ...request.body, id: userId }` — the body's camelCase keys are spread
into the insert payload unchanged (undefined optional fields contribute no
key). -/
def createProfilePayload (b : CreateProfileBody) (userId : String) : Row :=
  (match b.handle with | some v => [("handle", some v)] | none => [])
  ++ [("displayName", some b.displayName)]
  ++ (match b.bio with | some v => [("bio", some v)] | none => [])
  ++ (match b.avatarUrl with | some v => [("avatarUrl", some v)] | none => [])
  ++ (match b.countryCode with | some v => [("countryCode", some v)] | none => [])
  ++ (match b.phoneNumber with | some v => [("phoneNumber", some v)] | none => [])
  ++ [("id", some userId)]

/-- Reply of a profile route handler. -/
structure ProfileReply where
  httpStatus : Nat
  error : Option ErrorBody
  body : Option ApiProfile
  db : List Row
deriving DecidableEq, Repr

/-- POST /api/profiles handler: existence check with `getProfileByUserId`
(whose thrown no-rows error lands in the catch block as 500), 409 when a
profile exists, otherwise insert `{ ...body, id: userId }`. -/
def createProfileHandler (db : List Row) (userId : String)
    (b : CreateProfileBody) : ProfileReply :=
  match ProfileService.getProfileByUserId db userId with
  | .error _ => ⟨500, some CommonErrors.INTERNAL_ERROR, none, db⟩
  | .ok (some _) => ⟨409, some (CommonErrors.CONFLICT "Profile already exists"), none, db⟩
  | .ok none =>
    match ProfileService.createProfile db (createProfilePayload b userId) with
    | .ok (p, db2) => ⟨201, none, p, db2⟩
    | .error _ => ⟨500, some CommonErrors.INTERNAL_ERROR, none, db⟩

/-! ## src/routes/auth.ts : unified phone OTP flow -/

/-- JavaScript `s.slice(-4)`: the last four characters (the whole string when
shorter than four). -/
def jsSliceNeg4 (s : String) : String :=
  String.mk (s.data.drop (s.data.length - 4))

/-- The `signInWithOtp` request options the /phone handler builds: whether
the provider should create an identity, and the metadata passed along when
it should (`display_name` and a null `handle`). -/
structure OtpSendOptions where
  shouldCreateUser : Bool
  data : Option Row
deriving DecidableEq, Repr

/-- Outcome of the provider's `signInWithOtp` call (external collaborator):
`none` is success, `some (code, message)` is an error. -/
def OtpSendOutcome : Type := Option (String × String)

/-- Reply of POST /api/auth/phone, together with the OTP request that was
issued to the provider. -/
structure PhoneAuthReply where
  httpStatus : Nat
  error : Option ErrorBody
  isNewUser : Option Bool
  otpRequest : OtpSendOptions
deriving DecidableEq

/-- POST /api/auth/phone handler: look for a profile row with the submitted
phone number; request an OTP with identity creation and a generated
placeholder display name exactly when none exists; reply `isNewUser` with
that same novelty flag. -/
def phoneAuthHandler (profiles : List Row) (phone : String)
    (sendOutcome : OtpSendOutcome) : PhoneAuthReply :=
  let existingUsers := profiles.filter (fun r => getCol r "phone_number" == some phone)
  let userExists := !existingUsers.isEmpty
  let otpRequest : OtpSendOptions :=
    { shouldCreateUser := !userExists
      data :=
        if !userExists then
          some [("display_name", some ("User " ++ jsSliceNeg4 phone)), ("handle", none)]
        else none }
  match sendOutcome with
  | some (code, message) =>
    if code == "validation_failed" then
      ⟨400, some (CommonErrors.BAD_REQUEST "Invalid phone number provided"), none, otpRequest⟩
    else
      ⟨400, some (CommonErrors.BAD_REQUEST message), none, otpRequest⟩
  | none =>
    ⟨200, none, some (!userExists), otpRequest⟩

/-- The authenticated identity returned by the provider on OTP verification. -/
structure AuthUser where
  id : String
  phone : Option String
  email : Option String
deriving DecidableEq, Repr

/-- The session returned by the provider on OTP verification. -/
structure Session where
  access_token : String
  refresh_token : String
  expires_at : Int
deriving DecidableEq, Repr

/-- Outcome of the provider's `verifyOtp` call (external collaborator):
an error, a reply missing the user or session, or a full success. -/
inductive VerifyOtpOutcome where
  | failed
  | incomplete
  | verified (user : AuthUser) (session : Session)
deriving DecidableEq, Repr

/-- Reply of POST /api/auth/verify. -/
structure VerifyReply where
  httpStatus : Nat
  error : Option ErrorBody
  profile : Option Row
  session : Option Session
  isNewUser : Option Bool
  db : List Row
deriving DecidableEq

/-- POST /api/auth/verify handler: delegate verification to the provider;
on success fetch the profile by identity id (`.single()`, PGRST116 = no
single row → first-time path), creating it with the generated display name
when absent, and return profile, session and the first-time flag. -/
def verifyOtpHandler (profiles : List Row) (phone : String)
    (outcome : VerifyOtpOutcome) : VerifyReply :=
  match outcome with
  | .failed =>
    ⟨400, some (CommonErrors.BAD_REQUEST "Invalid or expired OTP"), none, none, none, profiles⟩
  | .incomplete =>
    ⟨400, some (CommonErrors.BAD_REQUEST "Verification failed"), none, none, none, profiles⟩
  | .verified user session =>
    match profiles.filter (fun r => getCol r "id" == some user.id) with
    | [p] =>
      ⟨200, none, some p, some session, some false, profiles⟩
    | _ =>
      let payload : Row :=
        [("id", some user.id), ("phone_number", some phone),
         ("display_name", some ("User " ++ jsSliceNeg4 phone)),
         ("handle", none), ("role", some "rider")]
      match insertProfileRow profiles payload with
      | .ok (newProfile, db2) =>
        ⟨200, none, some newProfile, some session, some true, db2⟩
      | .error _ =>
        ⟨500, some CommonErrors.INTERNAL_ERROR, none, none, none, profiles⟩

/-! ## Concrete sample data used by witness theorems -/

/-- A completed ride owned by `creator-1` (cancel-guard scenario). -/
def sampleCompletedRide : Ride :=
  { id := "ride-1", creator_id := "creator-1", title := "Sunday loop",
    tagline := none, route_summary := none,
    starts_at := "2025-01-05T09:00:00Z", meetup_location := none,
    pace := none, experience_level := none, max_riders := 10,
    status := "completed", name := none, date_iso := none,
    meetup_iso := none, meet_location := none, distance := none,
    gear_callout := none, comm_signals := none, safety_checks := none,
    created_at := "2025-01-01T00:00:00Z" }

/-- A scheduled ride owned by `creator-2` (non-creator update scenario). -/
def sampleScheduledRide : Ride :=
  { id := "ride-2", creator_id := "creator-2", title := "Twisty run",
    tagline := none, route_summary := none,
    starts_at := "2025-02-01T09:00:00Z", meetup_location := none,
    pace := none, experience_level := none, max_riders := 10,
    status := "scheduled", name := none, date_iso := none,
    meetup_iso := none, meet_location := none, distance := none,
    gear_callout := none, comm_signals := none, safety_checks := none,
    created_at := "2025-01-02T00:00:00Z" }

/-- An empty ride-update payload. -/
def emptyUpdateRideBody : UpdateRideBody :=
  { title := none, tagline := none, routeSummary := none, startsAt := none,
    meetupLocation := none, pace := none, experienceLevel := none,
    maxRiders := none, status := none, name := none, dateISO := none,
    meetupISO := none, meetLocation := none, distance := none,
    gearCallout := none, commSignals := none, safetyChecks := none }

/-- A motorcycle row that is active (not soft-deleted). -/
def sampleMotorcycle : Motorcycle :=
  { id := "moto-1", garage_id := "garage-1", make := "Honda",
    model := "CB500X", year := 2021, vin := none, odometer_km := some 12000,
    deleted_at := none, created_at := "2025-01-01T00:00:00Z" }

/-- A profile row holding the sample registered phone number. -/
def sampleProfileRow : Row :=
  [("id", some "user-0"), ("phone_number", some "+15551234567"),
   ("display_name", some "Existing User")]

/-! ## Theorems -/

/-- C4: for all natural numbers page, limit, total, `createPaginationMeta`
returns meta with `hasMore = true` exactly when `page * limit < total`, and
echoes page, limit and total unchanged. -/
theorem createPaginationMeta_correct (page limit total : Nat) :
    ((createPaginationMeta page limit total).hasMore = true ↔
      page * limit < total) ∧
    (createPaginationMeta page limit total).page = page ∧
    (createPaginationMeta page limit total).limit = limit ∧
    (createPaginationMeta page limit total).total = total := by
  refine ⟨?_, rfl, rfl, rfl⟩
  simp [createPaginationMeta]

/-- C7: the middleware produced by `requireRole` returns 401 UNAUTHORIZED
when no identity is attached, 403 FORBIDDEN when the attached identity's
role is outside the allow-list, and passes the request through with the
identity unchanged when the role is allowed. -/
theorem requireRole_gate (allowedRoles : List String)
    (requestUser : Option UserCtx) :
    (requestUser = none →
      requireRole allowedRoles requestUser =
        .reject 401 ⟨"UNAUTHORIZED", "Authentication required"⟩) ∧
    (∀ u, requestUser = some u → u.role ∉ allowedRoles →
      requireRole allowedRoles requestUser =
        .reject 403 ⟨"FORBIDDEN", "Insufficient permissions"⟩) ∧
    (∀ u, requestUser = some u → u.role ∈ allowedRoles →
      requireRole allowedRoles requestUser = .pass u) := by
  refine ⟨?_, ?_, ?_⟩
  · intro h; subst h; rfl
  · intro u h hrole; subst h
    simp [requireRole, hrole]
  · intro u h hrole; subst h
    simp [requireRole, hrole]

/-- Witness for C7 at concrete inputs: a missing identity, a rider hitting
an admin-only gate, and an admin passing it. -/
theorem requireRole_gate_witness :
    requireRole ["admin"] none =
      .reject 401 ⟨"UNAUTHORIZED", "Authentication required"⟩ ∧
    requireRole ["admin"] (some ⟨"u1", "u1@x.io", "rider"⟩) =
      .reject 403 ⟨"FORBIDDEN", "Insufficient permissions"⟩ ∧
    requireRole ["admin"] (some ⟨"u1", "u1@x.io", "admin"⟩) =
      .pass ⟨"u1", "u1@x.io", "admin"⟩ := by
  refine ⟨?_, ?_, ?_⟩
  · exact (requireRole_gate ["admin"] none).1 rfl
  · exact (requireRole_gate ["admin"] (some ⟨"u1", "u1@x.io", "rider"⟩)).2.1
      ⟨"u1", "u1@x.io", "rider"⟩ rfl (by decide)
  · exact (requireRole_gate ["admin"] (some ⟨"u1", "u1@x.io", "admin"⟩)).2.2
      ⟨"u1", "u1@x.io", "admin"⟩ rfl (by decide)

/-- C10: `getUpcomingRides` and `searchRides` filter on status `'active'`,
a value outside the declared ride status enum, so a ride whose status is any
of the four declared enum values is never returned by either query. -/
theorem activeFilter_excludes_declared_statuses (db : List Ride) (now : String)
    (f : RideService.SearchFilters) (r : Ride) (hmem : r ∈ db)
    (hstat : r.status = "scheduled" ∨ r.status = "in_progress" ∨
      r.status = "completed" ∨ r.status = "cancelled") :
    r ∉ RideService.getUpcomingRides db now ∧
    r ∉ RideService.searchRides db f := by
  have hne : (r.status == "active") = false := by
    rcases hstat with h | h | h | h <;> simp [h]
  constructor
  · intro hin
    rcases List.mem_filter.mp hin with ⟨-, hp⟩
    simp [hne] at hp
  · intro hin
    rcases List.mem_filter.mp hin with ⟨-, hp⟩
    simp [hne] at hp

/-- Witness for C10: a ride in declared status `scheduled` is excluded from
both queries. -/
theorem activeFilter_excludes_witness :
    sampleScheduledRide ∉
      RideService.getUpcomingRides [sampleScheduledRide] "2025-01-01" ∧
    sampleScheduledRide ∉
      RideService.searchRides [sampleScheduledRide] ⟨none, none, none, none⟩ :=
  activeFilter_excludes_declared_statuses [sampleScheduledRide] "2025-01-01"
    ⟨none, none, none, none⟩ sampleScheduledRide (by simp) (Or.inl rfl)

/-- Inversion of a successful `cancelRide`: the returned row has status
`'cancelled'` and the table afterwards is the pointwise stamped table. -/
theorem cancelRide_ok_inv (db : List Ride) (id : String) (r : Ride)
    (db2 : List Ride) (h : RideService.cancelRide db id = .ok (r, db2)) :
    r.status = "cancelled" ∧
    db2 = db.map (fun x => if x.id == id then { x with status := "cancelled" } else x) := by
  simp only [RideService.cancelRide] at h
  split at h
  case _ x heq =>
    rw [Except.ok.injEq, Prod.mk.injEq] at h
    obtain ⟨hxr, hdb⟩ := h
    have hmemx : x ∈ (db.map (fun y => if y.id == id then { y with status := "cancelled" } else y)).filter (fun y => y.id == id) := by
      rw [heq]; exact List.mem_singleton_self x
    obtain ⟨hmap, hid⟩ := List.mem_filter.mp hmemx
    obtain ⟨a, _, hfa⟩ := List.mem_map.mp hmap
    refine ⟨?_, hdb.symm⟩
    by_cases hc : (a.id == id) = true
    · rw [if_pos hc] at hfa
      rw [← hxr, ← hfa]
    · rw [if_neg (by simp_all)] at hfa
      rw [← hfa] at hid
      exact absurd hid hc
  case _ _ _ => exact absurd h (by simp)

/-- C9: the POST /:id/book and PATCH /:id/complete handlers are behaviorally
identical to PATCH /:id/cancel: same replies on every input, booking adds no
booking row, every ride row is either untouched or stamped `'cancelled'`
(never `'completed'`), and a 200 reply carries a ride with status
`'cancelled'`. -/
theorem book_complete_behave_as_cancel (rides : List Ride)
    (bookings : List Booking) (userId : Option String) (id : String) :
    bookRideHandler rides bookings userId id =
      cancelRideHandler rides bookings userId id ∧
    completeRideHandler rides bookings userId id =
      cancelRideHandler rides bookings userId id ∧
    (bookRideHandler rides bookings userId id).bookings = bookings ∧
    List.Forall₂ (fun old new => new = old ∨ new = { old with status := "cancelled" })
      rides (bookRideHandler rides bookings userId id).rides ∧
    ((bookRideHandler rides bookings userId id).httpStatus = 200 →
      ∃ rd, (bookRideHandler rides bookings userId id).body = some rd ∧
        rd.status = "cancelled") := by
  have hsame : List.Forall₂
      (fun old new => new = old ∨ new = { old with status := "cancelled" })
      rides rides :=
    List.forall₂_same.mpr (fun a _ => Or.inl rfl)
  have hmap : ∀ l : List Ride, List.Forall₂
      (fun old new => new = old ∨ new = { old with status := "cancelled" })
      l (l.map (fun x => if x.id == id then { x with status := "cancelled" } else x)) := by
    intro l
    induction l with
    | nil => constructor
    | cons a t ih =>
      refine List.Forall₂.cons ?_ ih
      by_cases hc : (a.id == id) = true
      · right; simp [hc]
      · left; simp [hc]
  refine ⟨rfl, rfl, ?_, ?_, ?_⟩
  · unfold bookRideHandler
    rcases h : RideService.getRideById rides id with e | r
    · simp
    · simp only []
      split
      · rfl
      · split
        · rfl
        · rcases h2 : RideService.cancelRide rides id with e2 | ⟨rr, db2⟩ <;> simp
  · unfold bookRideHandler
    rcases h : RideService.getRideById rides id with e | r
    · simpa using hsame
    · simp only []
      split
      · simpa using hsame
      · split
        · simpa using hsame
        · rcases h2 : RideService.cancelRide rides id with e2 | ⟨rr, db2⟩
          · simpa using hmap rides
          · obtain ⟨-, hdb⟩ := cancelRide_ok_inv rides id rr db2 h2
            simpa [hdb] using hmap rides
  · unfold bookRideHandler
    rcases h : RideService.getRideById rides id with e | r
    · simp
    · simp only []
      split
      · simp
      · split
        · simp
        · rcases h2 : RideService.cancelRide rides id with e2 | ⟨rr, db2⟩
          · simp
          · obtain ⟨hst, -⟩ := cancelRide_ok_inv rides id rr db2 h2
            intro _
            exact ⟨rr, rfl, hst⟩

/-- C3: a cancel request by the ride's creator on a ride whose status is
`'completed'` (or `'cancelled'`) replies 400 with error code `BAD_REQUEST`
and leaves the rides table, hence the ride's status, unchanged. -/
theorem cancelHandler_guards_completed (rides : List Ride)
    (bookings : List Booking) (r : Ride) (id : String)
    (hfil : rides.filter (fun x => x.id == id) = [r])
    (hstat : r.status = "completed" ∨ r.status = "cancelled") :
    cancelRideHandler rides bookings (some r.creator_id) id =
      ⟨400, some ⟨"BAD_REQUEST", "Cannot cancel completed or already cancelled ride"⟩,
        none, rides, bookings⟩ := by
  have hget : RideService.getRideById rides id = .ok r := by
    unfold RideService.getRideById
    rw [hfil]
  have hcond : (r.status == "completed" || r.status == "cancelled") = true := by
    rcases hstat with h | h <;> simp [h]
  unfold cancelRideHandler
  rw [hget]
  simp [hcond, CommonErrors.BAD_REQUEST]

/-- Witness for C3: the creator of a completed sample ride gets a 400
`BAD_REQUEST` reply and the table is untouched. -/
theorem cancelHandler_guards_completed_witness :
    cancelRideHandler [sampleCompletedRide] [] (some "creator-1") "ride-1" =
      ⟨400, some ⟨"BAD_REQUEST", "Cannot cancel completed or already cancelled ride"⟩,
        none, [sampleCompletedRide], []⟩ :=
  cancelHandler_guards_completed [sampleCompletedRide] [] sampleCompletedRide
    "ride-1" (by simp [sampleCompletedRide]) (Or.inl rfl)

/-- C5: an update request on an existing ride by an identity other than the
ride's creator replies 403 `FORBIDDEN` and performs no update, for every
payload; the rides table is returned unchanged. -/
theorem updateHandler_forbids_nonCreator (rides : List Ride)
    (bookings : List Booking) (userId : Option String) (id : String)
    (b : UpdateRideBody) (r : Ride)
    (hfil : rides.filter (fun x => x.id == id) = [r])
    (hne : userId ≠ some r.creator_id) :
    updateRideHandler rides bookings userId id b =
      ⟨403, some ⟨"FORBIDDEN", "Insufficient permissions"⟩,
        none, rides, bookings⟩ := by
  have hget : RideService.getRideById rides id = .ok r := by
    unfold RideService.getRideById
    rw [hfil]
  unfold updateRideHandler
  rw [hget]
  simp [hne, CommonErrors.FORBIDDEN]

/-- Witness for C5: a non-creator's update of the sample scheduled ride is
rejected with 403 and the table is untouched. -/
theorem updateHandler_forbids_nonCreator_witness :
    updateRideHandler [sampleScheduledRide] [] (some "intruder") "ride-2"
        emptyUpdateRideBody =
      ⟨403, some ⟨"FORBIDDEN", "Insufficient permissions"⟩,
        none, [sampleScheduledRide], []⟩ :=
  updateHandler_forbids_nonCreator [sampleScheduledRide] [] (some "intruder")
    "ride-2" emptyUpdateRideBody sampleScheduledRide
    (by simp [sampleScheduledRide]) (by simp [sampleScheduledRide])

/-- C2: after `softDeleteMotorcycle`, the stamped rows are invisible to
`getMotorcycleById` and `getMotorcyclesByGarage`, a query bypassing the
deletion filter still finds them (stamped, not removed), the table keeps its
length, every row keeps all columns but `deleted_at`; and in any state both
reads only ever return rows with a null `deleted_at`. -/
theorem softDelete_exclusion_invariant (db : List Motorcycle)
    (id now g : String) (db0 : List Motorcycle) (i g0 : String) :
    MotorcycleService.getMotorcycleById
        (MotorcycleService.softDeleteMotorcycle db id now) id =
      .error "Failed to get motorcycle: PGRST116" ∧
    (MotorcycleService.getMotorcyclesByGarage
        (MotorcycleService.softDeleteMotorcycle db id now) g).all
      (fun m => !(m.id == id)) = true ∧
    MotorcycleService.queryByIdBypassingDeleteFilter
        (MotorcycleService.softDeleteMotorcycle db id now) id =
      (MotorcycleService.queryByIdBypassingDeleteFilter db id).map
        (fun m => { m with deleted_at := some now }) ∧
    (MotorcycleService.softDeleteMotorcycle db id now).length = db.length ∧
    List.Forall₂ agreesExceptDeletedAt db
      (MotorcycleService.softDeleteMotorcycle db id now) ∧
    (MotorcycleService.getMotorcycleById db0 i).toOption.all
      (fun m => m.deleted_at.isNone) = true ∧
    (MotorcycleService.getMotorcyclesByGarage db0 g0).all
      (fun m => m.deleted_at.isNone) = true := by
  refine ⟨?_, ?_, ?_, ?_, ?_, ?_, ?_⟩
  · have hnil : (MotorcycleService.softDeleteMotorcycle db id now).filter
        (fun m => m.id == id && m.deleted_at.isNone) = [] := by
      apply List.filter_eq_nil_iff.mpr
      intro a ha
      obtain ⟨x, _, hfx⟩ :=
        List.mem_map.mp (by simpa [MotorcycleService.softDeleteMotorcycle] using ha)
      by_cases hc : x.id = id
      · simp [hc] at hfx
        simp [← hfx]
      · simp [hc] at hfx
        simp [← hfx, hc]
    unfold MotorcycleService.getMotorcycleById
    rw [hnil]
  · apply List.all_eq_true.mpr
    intro m hm
    obtain ⟨hmem, hpred⟩ := List.mem_filter.mp hm
    obtain ⟨x, _, hfx⟩ :=
      List.mem_map.mp (by simpa [MotorcycleService.softDeleteMotorcycle] using hmem)
    by_cases hc : x.id = id
    · simp [hc] at hfx
      rw [← hfx] at hpred
      simp at hpred
    · simp [hc] at hfx
      rw [← hfx]
      simp [hc]
  · unfold MotorcycleService.queryByIdBypassingDeleteFilter
      MotorcycleService.softDeleteMotorcycle
    induction db with
    | nil => rfl
    | cons a t ih =>
      by_cases hc : a.id = id
      · simpa [hc] using ih
      · simpa [hc] using ih
  · simp [MotorcycleService.softDeleteMotorcycle]
  · unfold MotorcycleService.softDeleteMotorcycle
    induction db with
    | nil => constructor
    | cons a t ih =>
      refine List.Forall₂.cons ?_ ih
      by_cases hc : a.id = id
      · simp [hc, agreesExceptDeletedAt]
      · simp [hc, agreesExceptDeletedAt]
  · unfold MotorcycleService.getMotorcycleById
    rcases hfil : db0.filter (fun m => m.id == i && m.deleted_at.isNone)
        with _ | ⟨x, xs⟩
    · rw [hfil]
      rfl
    · rcases xs with _ | ⟨y, ys⟩
      · have hx : x ∈ db0.filter (fun m => m.id == i && m.deleted_at.isNone) := by
          rw [hfil]; exact List.mem_singleton_self x
        obtain ⟨-, hpred⟩ := List.mem_filter.mp hx
        simp only [Bool.and_eq_true] at hpred
        rw [hfil]
        simp [Except.toOption, Option.all, hpred.2]
      · rw [hfil]
        rfl
  · apply List.all_eq_true.mpr
    intro m hm
    obtain ⟨-, hpred⟩ := List.mem_filter.mp hm
    simp only [Bool.and_eq_true] at hpred
    simp [hpred.2]

/-- Witness for C9 at a concrete input: on a singleton table the book
handler replies exactly as the cancel handler and adds no booking row. -/
theorem book_complete_behave_as_cancel_witness :
    bookRideHandler [sampleScheduledRide] [] (some "creator-2") "ride-2" =
      cancelRideHandler [sampleScheduledRide] [] (some "creator-2") "ride-2" ∧
    completeRideHandler [sampleScheduledRide] [] (some "creator-2") "ride-2" =
      cancelRideHandler [sampleScheduledRide] [] (some "creator-2") "ride-2" ∧
    (bookRideHandler [sampleScheduledRide] [] (some "creator-2") "ride-2").bookings = [] := by
  have h := book_complete_behave_as_cancel [sampleScheduledRide] []
    (some "creator-2") "ride-2"
  exact ⟨h.1, h.2.1, h.2.2.1⟩

/-- A successful `page` field parse: the default 1 on a missing value, the
lower bound, and integrality of an accepted raw value. -/
theorem parsePageField_ok_facts (v : Option Rat) (n : Int)
    (h : parsePageField v = .ok n) :
    (v = none → n = 1) ∧ 1 ≤ n ∧
    ∀ q, v = some q → q.den = 1 ∧ n = q.num := by
  cases v with
  | none =>
    simp only [parsePageField, Except.ok.injEq] at h
    exact ⟨fun _ => h.symm, by omega, fun q hq => by cases hq⟩
  | some q =>
    simp only [parsePageField] at h
    by_cases hden : q.den = 1
    · rw [if_pos hden] at h
      by_cases hge : 1 ≤ q
      · rw [if_pos hge] at h
        rw [Except.ok.injEq] at h
        have hq : (q.num : Rat) = q := (Rat.den_eq_one_iff q).mp hden
        have h1 : (1 : Rat) ≤ (q.num : Rat) := by rw [hq]; exact hge
        refine ⟨fun hv => Option.noConfusion hv, ?_, ?_⟩
        · rw [← h]; exact_mod_cast h1
        · intro q2 hq2
          rw [Option.some.injEq] at hq2
          subst hq2
          exact ⟨hden, h.symm⟩
      · rw [if_neg hge] at h
        cases h
    · rw [if_neg hden] at h
      cases h

/-- A successful `limit` field parse: the default 20 on a missing value,
both bounds, and integrality of an accepted raw value. -/
theorem parseLimitField_ok_facts (v : Option Rat) (n : Int)
    (h : parseLimitField v = .ok n) :
    (v = none → n = 20) ∧ 1 ≤ n ∧ n ≤ 100 ∧
    ∀ q, v = some q → q.den = 1 ∧ n = q.num := by
  cases v with
  | none =>
    simp only [parseLimitField, Except.ok.injEq] at h
    exact ⟨fun _ => h.symm, by omega, by omega, fun q hq => by cases hq⟩
  | some q =>
    simp only [parseLimitField] at h
    by_cases hden : q.den = 1
    · rw [if_pos hden] at h
      by_cases hge : 1 ≤ q
      · rw [if_pos hge] at h
        by_cases hle : q ≤ 100
        · rw [if_pos hle] at h
          rw [Except.ok.injEq] at h
          have hq : (q.num : Rat) = q := (Rat.den_eq_one_iff q).mp hden
          have h1 : (1 : Rat) ≤ (q.num : Rat) := by rw [hq]; exact hge
          have h2le : (q.num : Rat) ≤ (100 : Rat) := by rw [hq]; exact hle
          refine ⟨fun hv => Option.noConfusion hv, ?_, ?_, ?_⟩
          · rw [← h]; exact_mod_cast h1
          · rw [← h]; exact_mod_cast h2le
          · intro q2 hq2
            rw [Option.some.injEq] at hq2
            subst hq2
            exact ⟨hden, h.symm⟩
        · rw [if_neg hle] at h
          cases h
      · rw [if_neg hge] at h
        cases h
    · rw [if_neg hden] at h
      cases h

/-- A raw `limit` above 100 never parses: the schema rejects it instead of
clamping. -/
theorem parseLimitField_rejects_gt100 (q : Rat) (hgt : 100 < q) (n : Int) :
    parseLimitField (some q) ≠ .ok n := by
  intro h
  simp only [parseLimitField] at h
  by_cases hden : q.den = 1
  · rw [if_pos hden] at h
    by_cases hge : 1 ≤ q
    · rw [if_pos hge, if_neg (by exact not_le.mpr hgt)] at h
      cases h
    · rw [if_neg hge] at h
      cases h
  · rw [if_neg hden] at h
    cases h

/-- C8: pagination parsing defaults an omitted page to 1 and an omitted
limit to 20; every accepted page is an integer at least 1, every accepted
limit is an integer between 1 and 100; a limit above 100 is rejected by the
schema, not clamped. -/
theorem paginationSchema_normalization (inp : PaginationRawInput)
    (out : PaginationParsed) :
    (PaginationSchema.parse inp = .ok out →
      (inp.page = none → out.page = 1) ∧
      (inp.limit = none → out.limit = 20) ∧
      1 ≤ out.page ∧ 1 ≤ out.limit ∧ out.limit ≤ 100 ∧
      (∀ q, inp.page = some q → q.den = 1 ∧ out.page = q.num) ∧
      (∀ q, inp.limit = some q → q.den = 1 ∧ out.limit = q.num)) ∧
    (∀ q, inp.limit = some q → 100 < q →
      PaginationSchema.parse inp ≠ .ok out) := by
  constructor
  · intro h
    unfold PaginationSchema.parse at h
    rcases hp : parsePageField inp.page with ep | p <;>
      rcases hl : parseLimitField inp.limit with el | l <;>
        rw [hp, hl] at h
    · cases h
    · cases h
    · cases h
    · rw [Except.ok.injEq] at h
      subst h
      obtain ⟨hpdef, hpge, hpint⟩ := parsePageField_ok_facts inp.page p hp
      obtain ⟨hldef, hlge, hlle, hlint⟩ := parseLimitField_ok_facts inp.limit l hl
      exact ⟨fun hv => hpdef hv, fun hv => hldef hv, hpge, hlge, hlle, hpint, hlint⟩
  · intro q hq hgt h
    unfold PaginationSchema.parse at h
    rcases hp : parsePageField inp.page with ep | p <;>
      rcases hl : parseLimitField inp.limit with el | l <;>
        rw [hp, hl] at h
    · cases h
    · cases h
    · cases h
    · rw [hq] at hl
      exact parseLimitField_rejects_gt100 q hgt l hl

/-- Witness for C8: the empty query parses to the defaults (1, 20), and a
query with limit 101 is rejected. -/
theorem paginationSchema_normalization_witness :
    PaginationSchema.parse ⟨none, none⟩ = .ok ⟨1, 20⟩ ∧
    PaginationSchema.parse ⟨some 5, some 101⟩ ≠ .ok ⟨5, 100⟩ := by
  constructor
  · rfl
  · exact (paginationSchema_normalization ⟨some 5, some 101⟩ ⟨5, 100⟩).2 101 rfl
      (by norm_num)

/-- `getProfileByUserId` never succeeds with a null profile: `.single()`
data is non-null, so the handler's create branch behind the existence check
is unreachable. -/
theorem getProfileByUserId_ok_isSome (db : List Row) (uid : String)
    (v : Option ApiProfile)
    (h : ProfileService.getProfileByUserId db uid = .ok v) :
    v.isSome = true := by
  unfold ProfileService.getProfileByUserId at h
  split at h
  · rw [Except.ok.injEq] at h
    rw [← h]
    rfl
  · cases h

/-- An insert whose payload holds a key that is not a `profiles` column is
rejected by the storage layer. -/
theorem insertProfileRow_error_of_badKey (db : List Row) (payload : Row)
    (k : String) (v : Option String) (hmem : (k, v) ∈ payload)
    (hk : profileColumns.contains k = false) :
    insertProfileRow db payload =
      .error "Could not find a payload column in the schema cache" := by
  unfold insertProfileRow
  rcases hall : payload.all (fun kv => profileColumns.contains kv.1) with _ | _
  · rfl
  · have := List.all_eq_true.mp hall (k, v) hmem
    simp only at this
    rw [hk] at this
    cases this

/-- The spread body keeps its camelCase `displayName` key in the insert
payload. -/
theorem displayName_key_mem_payload (b : CreateProfileBody) (userId : String) :
    ("displayName", some b.displayName) ∈ createProfilePayload b userId := by
  unfold createProfilePayload
  cases b.handle <;> simp

/-- C1 (refuted round-trip): POST /api/profiles can only reply 409 or 500
and never stores a row — the existence check's no-row error becomes a 500,
and the payload `{ ...body, id }` keeps the camelCase `displayName` key,
which is not a `profiles` column, while the read transform reads the
`display_name` column; the insert itself would be rejected. -/
theorem createProfile_write_read_mismatch (db : List Row) (userId : String)
    (b : CreateProfileBody) (p : Row) :
    ((createProfileHandler db userId b).httpStatus = 409 ∨
      (createProfileHandler db userId b).httpStatus = 500) ∧
    (createProfileHandler db userId b).db = db ∧
    ((createProfilePayload b userId).map Prod.fst).contains "display_name" = false ∧
    ((createProfilePayload b userId).map Prod.fst).contains "displayName" = true ∧
    profileColumns.contains "displayName" = false ∧
    ProfileService.createProfile db (createProfilePayload b userId) =
      .error "Failed to create profile: Could not find a payload column in the schema cache" ∧
    (ProfileService.transformProfileToAPI (some p)).elim none
      ApiProfile.displayName = getCol p "display_name" := by
  have h12 : ((createProfileHandler db userId b).httpStatus = 409 ∨
      (createProfileHandler db userId b).httpStatus = 500) ∧
      (createProfileHandler db userId b).db = db := by
    unfold createProfileHandler
    rcases hg : ProfileService.getProfileByUserId db userId with e | v
    · exact ⟨Or.inr rfl, rfl⟩
    · rcases v with _ | ap
      · have hs := getProfileByUserId_ok_isSome db userId none hg
        simp at hs
      · exact ⟨Or.inl rfl, rfl⟩
  have hkeys : ((createProfilePayload b userId).map Prod.fst).contains
        "display_name" = false ∧
      ((createProfilePayload b userId).map Prod.fst).contains
        "displayName" = true := by
    rcases b with ⟨bh, bd, bb, bav, bcc, bph⟩
    cases bh <;> cases bb <;> cases bav <;> cases bcc <;> cases bph <;>
      exact ⟨rfl, rfl⟩
  have hins : ProfileService.createProfile db (createProfilePayload b userId) =
      .error "Failed to create profile: Could not find a payload column in the schema cache" := by
    have he := insertProfileRow_error_of_badKey db (createProfilePayload b userId)
      "displayName" (some b.displayName)
      (displayName_key_mem_payload b userId) rfl
    unfold ProfileService.createProfile
    rw [he]
    rfl
  exact ⟨h12.1, h12.2, hkeys.1, hkeys.2, rfl, hins, rfl⟩

/-- C6: for an unregistered phone, /phone replies `isNewUser = true` and
requests the OTP with identity creation and placeholder name
`User <last 4>`; for a registered phone it replies `isNewUser = false`
without identity creation; a first-time /verify success creates a profile
whose display name starts with `"User "` and returns the provider session
(non-empty access token) with `isNewUser = true`. -/
theorem unifiedPhoneAuth_flow (pA : List Row) (phA : String)
    (pB : List Row) (phB : String) (pC : List Row) (phC : String)
    (user : AuthUser) (session : Session)
    (hA : pA.all (fun r => !(getCol r "phone_number" == some phA)) = true)
    (hB : (pB.filter (fun r => getCol r "phone_number" == some phB)).isEmpty = false)
    (hC : pC.all (fun r => !(getCol r "id" == some user.id)) = true)
    (hS : session.access_token ≠ "") :
    (phoneAuthHandler pA phA none).httpStatus = 200 ∧
    (phoneAuthHandler pA phA none).isNewUser = some true ∧
    (phoneAuthHandler pA phA none).otpRequest.shouldCreateUser = true ∧
    (phoneAuthHandler pA phA none).otpRequest.data =
      some [("display_name", some ("User " ++ jsSliceNeg4 phA)), ("handle", none)] ∧
    (phoneAuthHandler pB phB none).httpStatus = 200 ∧
    (phoneAuthHandler pB phB none).isNewUser = some false ∧
    (phoneAuthHandler pB phB none).otpRequest.shouldCreateUser = false ∧
    (phoneAuthHandler pB phB none).otpRequest.data = none ∧
    (verifyOtpHandler pC phC (.verified user session)).httpStatus = 200 ∧
    (verifyOtpHandler pC phC (.verified user session)).isNewUser = some true ∧
    (verifyOtpHandler pC phC (.verified user session)).session = some session ∧
    ((verifyOtpHandler pC phC (.verified user session)).session.elim ""
      Session.access_token ≠ "") ∧
    (verifyOtpHandler pC phC (.verified user session)).profile =
      some [("id", some user.id), ("phone_number", some phC),
        ("display_name", some ("User " ++ jsSliceNeg4 phC)),
        ("handle", none), ("role", some "rider")] ∧
    ("User " ++ jsSliceNeg4 phC).data.take 5 = "User ".data ∧
    (verifyOtpHandler pC phC (.verified user session)).db =
      pC ++ [[("id", some user.id), ("phone_number", some phC),
        ("display_name", some ("User " ++ jsSliceNeg4 phC)),
        ("handle", none), ("role", some "rider")]] := by
  have hfilA : pA.filter (fun r => getCol r "phone_number" == some phA) = [] := by
    apply List.filter_eq_nil_iff.mpr
    intro a ha
    have := List.all_eq_true.mp hA a ha
    simp only [Bool.not_eq_eq_eq_not, Bool.not_true] at this
    simp [this]
  have hfilC : pC.filter (fun r => getCol r "id" == some user.id) = [] := by
    apply List.filter_eq_nil_iff.mpr
    intro a ha
    have := List.all_eq_true.mp hC a ha
    simp only [Bool.not_eq_eq_eq_not, Bool.not_true] at this
    simp [this]
  have hBne : (pB.filter (fun r => getCol r "phone_number" == some phB)).isEmpty = false := hB
  have hprefix : ("User " ++ jsSliceNeg4 phC).data.take 5 = "User ".data := by
    rw [String.data_append]
    have h5 : ("User ").data.length = 5 := by decide
    rw [← h5, List.take_left]
  have hverify : verifyOtpHandler pC phC (.verified user session) =
      ⟨200, none,
        some [("id", some user.id), ("phone_number", some phC),
          ("display_name", some ("User " ++ jsSliceNeg4 phC)),
          ("handle", none), ("role", some "rider")],
        some session, some true,
        pC ++ [[("id", some user.id), ("phone_number", some phC),
          ("display_name", some ("User " ++ jsSliceNeg4 phC)),
          ("handle", none), ("role", some "rider")]]⟩ := by
    simp only [verifyOtpHandler]
    rw [hfilC]
    rfl
  have hphoneA : phoneAuthHandler pA phA none =
      ⟨200, none, some true,
        { shouldCreateUser := true
          data := some [("display_name", some ("User " ++ jsSliceNeg4 phA)),
            ("handle", none)] }⟩ := by
    unfold phoneAuthHandler
    rw [hfilA]
    rfl
  have hphoneB : phoneAuthHandler pB phB none =
      ⟨200, none, some false, { shouldCreateUser := false, data := none }⟩ := by
    unfold phoneAuthHandler
    simp only [hBne]
    rfl
  refine ⟨?_, ?_, ?_, ?_, ?_, ?_, ?_, ?_, ?_, ?_, ?_, ?_, ?_, hprefix, ?_⟩
  · rw [hphoneA]
  · rw [hphoneA]
  · rw [hphoneA]
  · rw [hphoneA]
  · rw [hphoneB]
  · rw [hphoneB]
  · rw [hphoneB]
  · rw [hphoneB]
  · rw [hverify]
  · rw [hverify]
  · rw [hverify]
  · rw [hverify]
    simpa using hS
  · rw [hverify]
  · rw [hverify]

/-- Witness for C6 at concrete inputs: an unregistered phone yields
`isNewUser = true`, a registered one `isNewUser = false`, and a first-time
verification replies `isNewUser = true`. -/
theorem unifiedPhoneAuth_flow_witness :
    (phoneAuthHandler [] "+15551234567" none).isNewUser = some true ∧
    (phoneAuthHandler [sampleProfileRow] "+15551234567" none).isNewUser = some false ∧
    (verifyOtpHandler [] "+15551234567"
      (.verified ⟨"user-1", some "+15551234567", none⟩
        ⟨"access-tok", "refresh-tok", 1736000000⟩)).isNewUser = some true := by
  have h := unifiedPhoneAuth_flow [] "+15551234567" [sampleProfileRow]
    "+15551234567" [] "+15551234567" ⟨"user-1", some "+15551234567", none⟩
    ⟨"access-tok", "refresh-tok", 1736000000⟩ rfl (by decide) rfl (by decide)
  exact ⟨h.2.1, h.2.2.2.2.2.1, h.2.2.2.2.2.2.2.2.2.1⟩

end Broad
